import Mathlib

/-!
Verification of `lamprinidis_api_challenge.py`.

This file gives a shallow embedding of the parts of the program the claims
are about: the point-incident parser `parse_fire_data`, the summary
statistics of `analyze_data`, and the spatio-temporal correlator
`compare_detection_times` together with the shapely point-in-polygon
containment it calls.

Modelling conventions:
  * Python floats of the data (coordinates, sizes) are modelled as exact
    rationals; the inputs exercised by the claims are small decimals.
  * Timestamps are integers (epoch milliseconds, UTC); comparison of
    timezone-aware `datetime` values is the linear order on instants.
  * A `dict.get` that may be absent is an `Option`; a raised-and-caught
    exception inside the per-feature `try` is a `none` that skips the
    feature.
-/

/-- A GeoJSON value as far as `feature["geometry"]["coordinates"]` is
concerned: the parser reads it without inspecting its shape, so a number or
an arbitrarily nested list can appear there. -/
inductive GeoValue where
  | num (q : ℚ) : GeoValue
  | arr (elems : List GeoValue) : GeoValue

/-- Python `tuple(coords)` as used at the `fire_records.append` site: it
succeeds exactly on iterable values (lists), returning their elements in
order, and raises `TypeError` on a bare number (the raise is caught by the
per-feature `except`, skipping the feature). -/
def tupleOf : GeoValue → Option (List GeoValue)
  | .arr elems => some elems
  | .num _ => none

/-- One raw feature of the public point-incident feed, restricted to the
fields `parse_fire_data` reads: `feature["geometry"]["coordinates"]` (a
missing geometry or coordinates key raises `KeyError`, caught and skipped,
hence `Option`), `properties.get("FireDiscoveryDateTime")` (epoch
milliseconds) and `properties.get("IncidentSize")` (`none` also covers a
value that `float()` rejects). -/
structure FireFeature where
  coordinates : Option GeoValue
  fireDiscoveryDateTime : Option ℤ
  incidentSize : Option ℚ

/-- A parsed public fire record: the dict
`{"coordinates": tuple(coords), "detection_time": ..., "incident_size": ...}`
appended by `parse_fire_data`. `detection_time` keeps the epoch
milliseconds of the UTC instant `datetime.fromtimestamp(ts / 1000, utc)`. -/
structure FireRecord where
  coordinates : List GeoValue
  detection_time : ℤ
  incident_size : ℚ

/-- The body of the `for feature in geojson_data["features"]` loop of
`parse_fire_data`: fetch the coordinates (a `KeyError` skips the feature),
check the discovery timestamp and the size for `None` (each `continue`s),
and build the record; `tuple(coords)` raises inside the `try` on
non-iterable coordinates, which also skips the feature. -/
def parseFeature (f : FireFeature) : Option FireRecord :=
  match f.coordinates with
  | none => none
  | some coords =>
    match f.fireDiscoveryDateTime with
    | none => none
    | some ts =>
      match f.incidentSize with
      | none => none
      | some sz =>
        match tupleOf coords with
        | none => none
        | some tup => some { coordinates := tup, detection_time := ts, incident_size := sz }

/-- Lean model of `parse_fire_data`: an absent collection or one without a
`"features"` list (the `none` case) yields the empty record list; otherwise
each feature is parsed independently and the failures are skipped. -/
def parse_fire_data : Option (List FireFeature) → List FireRecord
  | none => []
  | some features => features.filterMap parseFeature

/-- Hour of day (0–23, UTC) of an epoch-millisecond instant: the `.hour` of
`datetime.fromtimestamp(ts / 1000, tz=timezone.utc)`. -/
def hourOfMillis (t : ℤ) : ℤ :=
  (t.ediv 3600000).emod 24

/-- The list `hours` built by `analyze_data`:
`[record["detection_time"].hour for record in fire_records]`. -/
def hours (records : List FireRecord) : List ℤ :=
  records.map (fun r => hourOfMillis r.detection_time)

/-- The list `sizes` built by `analyze_data`:
`[record["incident_size"] for record in fire_records]`. -/
def sizes (records : List FireRecord) : List ℚ :=
  records.map (fun r => r.incident_size)

/-- The quantity `(df["size"] > 1000).sum()` of `analyze_data`: the sum of
the boolean column comparing each size against the 1000-acre threshold. -/
def large_fire_count (records : List FireRecord) : ℕ :=
  ((sizes records).map (fun s => if 1000 < s then 1 else 0)).sum

/-- Arithmetic mean of a rational list (the means appearing inside the
Pearson formula that `Series.corr` computes). -/
def mean (xs : List ℚ) : ℚ :=
  xs.sum / (xs.length : ℚ)

/-- The Pearson correlation coefficient of two equally long columns, the
quantity `df["hour"].corr(df["size"])` computes:
`Σ (x-x̄)(y-ȳ) / (sqrt (Σ (x-x̄)²) * sqrt (Σ (y-ȳ)²))`. On degenerate data
(a zero variance) the float code yields `nan`; the real-valued model yields
the junk value `0` of division by zero there. -/
noncomputable def pearson (xs ys : List ℚ) : ℝ :=
  let mx := mean xs
  let my := mean ys
  let cov := ((xs.zip ys).map (fun p => (p.1 - mx) * (p.2 - my))).sum
  let vx : ℚ := (xs.map (fun x => (x - mx) ^ 2)).sum
  let vy : ℚ := (ys.map (fun y => (y - my) ^ 2)).sum
  (cov : ℝ) / (Real.sqrt (vx : ℝ) * Real.sqrt (vy : ℝ))

/-- The `correlation` result of `analyze_data`: `None` unless `len(df) > 1`,
and the Pearson coefficient of the hour and size columns otherwise. -/
noncomputable def correlation (records : List FireRecord) : Option ℝ :=
  if 1 < records.length then
    some (pearson ((hours records).map (fun h => (h : ℚ))) (sizes records))
  else
    none

/-!
Geometry. `compare_detection_times` calls `shapely`'s `poly.contains(point)`
on the (multi)polygons produced by `shape(geometry)` in `parse_wfs_data`.
OGC/shapely semantics of `A.contains(B)` for a point `B`: the point lies in
the INTERIOR of `A` — strictly inside the shell, outside every hole, and on
no boundary ring.  We model a ring as its vertex cycle with exact rational
coordinates, interior membership by ray-crossing parity (the Jordan
crossing test is exact over ℚ and determines interior membership for every
point not on the boundary) together with an explicit boundary exclusion.
-/

/-- A planar coordinate pair (longitude, latitude) with exact rational
coordinates. -/
abbrev Coord := ℚ × ℚ

/-- The edge cycle of a ring given by its vertex list: consecutive
vertices are joined, and the last is joined back to the first. -/
def ringEdges (r : List Coord) : List (Coord × Coord) :=
  match r with
  | [] => []
  | v :: _ => r.zip (r.tail ++ [v])

/-- One step of the ray-crossing parity test: whether the horizontal
leftward ray from `p` crosses the edge `e` (half-open in `y` so that a
vertex is counted once, and exact over ℚ). -/
def crossesEdge (p : Coord) (e : Coord × Coord) : Bool :=
  (decide (e.1.2 > p.2) != decide (e.2.2 > p.2)) &&
    decide (p.1 < e.1.1 + (e.2.1 - e.1.1) * (p.2 - e.1.2) / (e.2.2 - e.1.2))

/-- Crossing-parity membership for a ring: an odd number of edge crossings.
For a point not on the ring this decides strict interior membership of the
closed curve; on the ring itself the value is not used (boundary points are
tested separately). -/
def insideRing (p : Coord) (r : List Coord) : Bool :=
  (ringEdges r).countP (crossesEdge p) % 2 == 1

/-- Whether `p` lies on the closed segment `e` (collinear and inside the
bounding box), exactly over ℚ. -/
def onSegment (p : Coord) (e : Coord × Coord) : Bool :=
  decide ((e.2.1 - e.1.1) * (p.2 - e.1.2) = (e.2.2 - e.1.2) * (p.1 - e.1.1)) &&
    decide (min e.1.1 e.2.1 ≤ p.1) && decide (p.1 ≤ max e.1.1 e.2.1) &&
    decide (min e.1.2 e.2.2 ≤ p.2) && decide (p.2 ≤ max e.1.2 e.2.2)

/-- Whether `p` lies on some edge of the ring. -/
def onRing (p : Coord) (r : List Coord) : Bool :=
  (ringEdges r).any (onSegment p)

/-- A simple polygon as shapely represents it: an outer shell ring and a
list of hole rings. -/
structure Polygon where
  shell : List Coord
  holes : List (List Coord)

/-- Whether `p` lies on the boundary of the polygon: on the shell ring or
on some hole ring. -/
def Polygon.boundaryHas (poly : Polygon) (p : Coord) : Bool :=
  onRing p poly.shell || poly.holes.any (onRing p)

/-- Interior membership, the meaning of shapely `polygon.contains(point)`
for a simple polygon: strictly inside the shell (odd crossing parity and
not on the shell ring) and strictly outside every hole (even parity and
not on the hole ring). -/
def Polygon.interiorHas (poly : Polygon) (p : Coord) : Bool :=
  insideRing p poly.shell && !(onRing p poly.shell) &&
    poly.holes.all (fun h => !(insideRing p h) && !(onRing p h))

/-- The geometry `shape(feature["geometry"])` builds in `parse_wfs_data`:
a polygon or a multipolygon. -/
inductive Geometry where
  | polygon (poly : Polygon) : Geometry
  | multiPolygon (polys : List Polygon) : Geometry

/-- Shapely `geometry.contains(point)`: the point lies in the interior of
the geometry — for a multipolygon (with pairwise interior-disjoint parts,
as validity requires), in the interior of one of its parts. -/
def Geometry.contains : Geometry → Coord → Bool
  | .polygon poly, p => poly.interiorHas p
  | .multiPolygon polys, p => polys.any (fun poly => poly.interiorHas p)

/-!
The correlator. `compare_detection_times` consumes the parsed public
records and the parsed WFS records. Its per-record work requires the
record's coordinates to be a longitude/latitude pair (`Point(coords)`), so
the correlator's input type carries the pair directly.
-/

/-- A public fire record as the correlator reads it: the coordinates form
the longitude/latitude pair handed to `Point(...)`. -/
structure PointIncident where
  coordinates : Coord
  detection_time : ℤ
  incident_size : ℚ
deriving DecidableEq

/-- One parsed WFS record, the dict
`{"polygon": shapely shape, "detection_time": ...}` built by
`parse_wfs_data`. -/
structure PolygonDetection where
  polygon : Geometry
  detection_time : ℤ

/-- One entry of the `early_detected` list built by
`compare_detection_times`. -/
structure CorrelationMatch where
  coordinates : Coord
  wfs_detection_time : ℤ
  official_time : ℤ
  incident_size : ℚ
deriving DecidableEq

/-- The dict appended to `early_detected` for a qualifying pair. -/
def mkMatch (record : PointIncident) (wfs : PolygonDetection) : CorrelationMatch :=
  { coordinates := record.coordinates
    wfs_detection_time := wfs.detection_time
    official_time := record.detection_time
    incident_size := record.incident_size }

/-- The inner `for wfs in wfs_records` loop of `compare_detection_times`
for one public record: scan the WFS records in order; at the first one
whose polygon contains the fire point AND whose detection time is strictly
earlier than the official time, append the match and `break`; if the
conjunction fails the scan continues with the next WFS record. -/
def findMatch (wfs_records : List PolygonDetection) (record : PointIncident) : Option CorrelationMatch :=
  match wfs_records with
  | [] => none
  | wfs :: rest =>
    if wfs.polygon.contains record.coordinates ∧ wfs.detection_time < record.detection_time then
      some (mkMatch record wfs)
    else
      findMatch rest record

/-- The outer loop of `compare_detection_times`: public records are
processed in input order and each appends at most one match. -/
def compare_detection_times (public_records : List PointIncident) (wfs_records : List PolygonDetection) : List CorrelationMatch :=
  match public_records with
  | [] => []
  | record :: rest =>
    match findMatch wfs_records record with
    | some m => m :: compare_detection_times rest wfs_records
    | none => compare_detection_times rest wfs_records

/-- The public record of a match, reassembled from the fields the match
stores (the correlator copies `coordinates`, `detection_time` and
`incident_size` verbatim). -/
def CorrelationMatch.toPoint (m : CorrelationMatch) : PointIncident :=
  { coordinates := m.coordinates
    detection_time := m.official_time
    incident_size := m.incident_size }

/-!
Theorems.
-/

/-- The inner loop stops at the first WFS record satisfying the full
conjunction (containment AND strictly earlier detection), i.e. it is
`List.find?` with that predicate. -/
theorem findMatch_eq_find? (qs : List PolygonDetection) (p : PointIncident) :
    findMatch qs p =
      (qs.find? (fun q =>
        q.polygon.contains p.coordinates && decide (q.detection_time < p.detection_time))).map
        (mkMatch p) := by
  induction qs with
  | nil => rfl
  | cons q qs ih =>
    by_cases h : q.polygon.contains p.coordinates ∧ q.detection_time < p.detection_time
    · rw [findMatch, if_pos h, List.find?_cons_of_pos]
      · rfl
      · simp [h.1, h.2]
    · rw [findMatch, if_neg h, List.find?_cons_of_neg, ih]
      simpa using h

/-- Claim C1: the claim states that only the FIRST polygon containing a
point is ever considered, and that a point produces no match when that
polygon's detection time is not strictly earlier. The code refutes this:
here the first polygon of the set contains the point `(0,0)` and its
detection time `10` is not earlier than the point's time `10`, yet the
correlator still produces a match, taken from the second (identical)
polygon whose time `5` is earlier. -/
theorem c1_counterexample :
    (Geometry.polygon ⟨[(-1,-1),(1,-1),(1,1),(-1,1)], []⟩).contains (0,0) = true ∧
    ¬ ((10:ℤ) < 10) ∧
    compare_detection_times
      [{ coordinates := (0,0), detection_time := 10, incident_size := 1 }]
      [{ polygon := .polygon ⟨[(-1,-1),(1,-1),(1,1),(-1,1)], []⟩, detection_time := 10 },
       { polygon := .polygon ⟨[(-1,-1),(1,-1),(1,1),(-1,1)], []⟩, detection_time := 5 }] =
      [{ coordinates := (0,0), wfs_detection_time := 5, official_time := 10,
         incident_size := 1 }] := by
  with_unfolding_all decide

/-- Claim C1, amended: for every list of point records and polygon records,
the correlator matches each point to the FIRST polygon (in polygon-set
order) that both contains the point and has a strictly earlier detection
time; a containing polygon whose detection time is not earlier does not
stop the scan, and the point produces no match exactly when no polygon
passes both tests. -/
theorem c1_first_qualifying_polygon (ps : List PointIncident) (qs : List PolygonDetection) :
    compare_detection_times ps qs =
      ps.filterMap (fun p =>
        (qs.find? (fun q =>
          q.polygon.contains p.coordinates && decide (q.detection_time < p.detection_time))).map
          (mkMatch p)) := by
  induction ps with
  | nil => rfl
  | cons p ps ih =>
    rw [compare_detection_times, List.filterMap_cons, ← findMatch_eq_find?]
    cases h : findMatch qs p with
    | none => simpa [h] using ih
    | some m => simpa [h] using ih

/-- Claim C2: the claim states that a point exactly on a polygon edge is
treated as contained and can produce a match when the polygon is earlier.
The code refutes this: the point `(-121, 39)` lies exactly on the left edge
of the rectangle `[-121,-119] × [38,40]`, the polygon's detection time `0`
is strictly earlier than the point's time `10`, yet shapely `contains` is
false on the boundary and the correlator produces no match. -/
theorem c2_counterexample :
    onRing (-121, 39) [(-121,38),(-119,38),(-119,40),(-121,40)] = true ∧
    (Geometry.polygon ⟨[(-121,38),(-119,38),(-119,40),(-121,40)], []⟩).contains (-121, 39) = false ∧
    ((0:ℤ) < 10) ∧
    compare_detection_times
      [{ coordinates := (-121, 39), detection_time := 10, incident_size := 50 }]
      [{ polygon := .polygon ⟨[(-121,38),(-119,38),(-119,40),(-121,40)], []⟩,
         detection_time := 0 }] = [] := by
  with_unfolding_all decide

/-- Claim C2, amended: the containment test the correlator uses (shapely
`contains`, i.e. interior membership) is boundary-EXCLUSIVE: a point lying
on the boundary of a polygon (its shell ring or a hole ring) is not
contained in it, and a point record with such coordinates never produces a
match against that polygon, whatever the detection times are. -/
theorem c2_boundary_excluded (poly : Polygon) (pt : Coord)
    (h : poly.boundaryHas pt = true) :
    (Geometry.polygon poly).contains pt = false ∧
    ∀ (record : PointIncident) (t : ℤ), record.coordinates = pt →
      findMatch [{ polygon := .polygon poly, detection_time := t }] record = none := by
  have hc : (Geometry.polygon poly).contains pt = false := by
    simp [Polygon.boundaryHas, List.any_eq_true] at h
    rcases h with h | ⟨r, hr, hrr⟩
    · simp [Geometry.contains, Polygon.interiorHas, h]
    · simp [Geometry.contains, Polygon.interiorHas, List.all_eq_true]
      intro _ _
      exact ⟨r, hr, fun _ => hrr⟩
  refine ⟨hc, ?_⟩
  intro record t hco
  rw [findMatch, if_neg, findMatch]
  rintro ⟨hcon, -⟩
  rw [hco, hc] at hcon
  exact Bool.false_ne_true hcon

/-- Witness for the amended claim C2, at the rectangle and on-edge point of
the boundary scenario. -/
theorem c2_witness :
    (Geometry.polygon ⟨[(-121,38),(-119,38),(-119,40),(-121,40)], []⟩).contains (-121, 39) = false ∧
    findMatch
      [{ polygon := .polygon ⟨[(-121,38),(-119,38),(-119,40),(-121,40)], []⟩,
         detection_time := 0 }]
      { coordinates := (-121, 39), detection_time := 10, incident_size := 50 } = none := by
  refine ⟨?_, ?_⟩
  · exact (c2_boundary_excluded ⟨[(-121,38),(-119,38),(-119,40),(-121,40)], []⟩ (-121, 39)
      (by with_unfolding_all decide)).1
  · exact (c2_boundary_excluded ⟨[(-121,38),(-119,38),(-119,40),(-121,40)], []⟩ (-121, 39)
      (by with_unfolding_all decide)).2
      { coordinates := (-121, 39), detection_time := 10, incident_size := 50 } 0 rfl

/-- A match returned by the inner loop records a WFS detection time that
passed the strict comparison against the official time. -/
theorem findMatch_time_lt (qs : List PolygonDetection) (p : PointIncident)
    (m : CorrelationMatch) (h : findMatch qs p = some m) :
    m.wfs_detection_time < m.official_time := by
  induction qs with
  | nil => exact absurd h (by simp [findMatch])
  | cons q qs ih =>
    rw [findMatch] at h
    split at h
    · next hcond =>
      obtain rfl : mkMatch p q = m := by injection h
      exact hcond.2
    · exact ih h

/-- Claim C3: every match the correlator emits satisfies the strict
inequality `wfs_detection_time < official_time`; since a match records the
detection times of its polygon and its point verbatim, a polygon whose
detection time equals the point's can never be the polygon of a match, so
an equal-timestamp pair produces no match. -/
theorem c3_equal_timestamps_never_match (ps : List PointIncident)
    (qs : List PolygonDetection) (m : CorrelationMatch)
    (hm : m ∈ compare_detection_times ps qs) :
    m.wfs_detection_time < m.official_time := by
  induction ps with
  | nil => exact absurd hm (by simp [compare_detection_times])
  | cons p ps ih =>
    rw [compare_detection_times] at hm
    split at hm
    · next m0 h0 =>
      rcases List.mem_cons.mp hm with rfl | hm
      · exact findMatch_time_lt qs p m h0
      · exact ih hm
    · exact ih hm

/-- Witness for claim C3: scenario 1 of the spec (point at `(-120, 39)`
inside the rectangle, polygon detected earlier, at instant `10` against the
point's `12`) produces a match, and the theorem applied to it yields the
strict inequality of its two times. -/
theorem c3_witness : (10 : ℤ) < 12 :=
  c3_equal_timestamps_never_match
    [{ coordinates := (-120, 39), detection_time := 12, incident_size := 50 }]
    [{ polygon := .polygon ⟨[(-121,38),(-119,38),(-119,40),(-121,40)], []⟩,
       detection_time := 10 }]
    { coordinates := (-120, 39), wfs_detection_time := 10,
      official_time := 12, incident_size := 50 }
    (by with_unfolding_all decide)

/-- A match emitted by the inner loop for a point stores exactly that
point's coordinates, detection time and size. -/
theorem findMatch_toPoint (qs : List PolygonDetection) (p : PointIncident)
    (m : CorrelationMatch) (h : findMatch qs p = some m) :
    m.toPoint = p := by
  induction qs with
  | nil => exact absurd h (by simp [findMatch])
  | cons q qs ih =>
    rw [findMatch] at h
    split at h
    · obtain rfl : mkMatch p q = m := by injection h
      rfl
    · exact ih h

/-- Claim C9: the points of the emitted matches form a sublist of the input
point records — the match list preserves the input order of the points, and
each input point gives rise to at most one match. -/
theorem c9_matches_sublist_of_points (ps : List PointIncident)
    (qs : List PolygonDetection) :
    ((compare_detection_times ps qs).map CorrelationMatch.toPoint).Sublist ps := by
  induction ps with
  | nil => simp [compare_detection_times]
  | cons p ps ih =>
    rw [compare_detection_times]
    cases h : findMatch qs p with
    | none => exact ih.cons p
    | some m =>
      rw [List.map_cons, findMatch_toPoint qs p m h]
      exact ih.cons₂ p

/-- A record accepted by the per-feature parser carries exactly the size
value found in the feature (converted by `float`, which the rational model
absorbs): the parser copies it without inspecting its sign. -/
theorem parseFeature_size (f : FireFeature) (r : FireRecord)
    (h : parseFeature f = some r) : f.incidentSize = some r.incident_size := by
  rw [parseFeature] at h
  cases hc : f.coordinates with
  | none => rw [hc] at h; exact absurd h (by simp)
  | some coords =>
  rw [hc] at h
  cases ht : f.fireDiscoveryDateTime with
  | none => rw [ht] at h; exact absurd h (by simp)
  | some ts =>
  rw [ht] at h
  cases hs : f.incidentSize with
  | none => rw [hs] at h; exact absurd h (by simp)
  | some sz =>
  rw [hs] at h
  dsimp only at h
  cases htp : tupleOf coords with
  | none => rw [htp] at h; exact absurd h (by simp)
  | some tup =>
  rw [htp] at h
  obtain rfl :
      ({ coordinates := tup, detection_time := ts, incident_size := sz } : FireRecord) = r := by
    injection h
  rfl

/-- Claim C5: the claim states every parsed record satisfies
`incident_size >= 0` for EVERY input collection. The code refutes this: the
parser performs no sign check, so a feature whose size field is `-5` (with
coordinates and timestamp present) is accepted and yields a record with
`incident_size = -5 < 0`. -/
theorem c5_counterexample :
    parse_fire_data (some [{ coordinates := some (.arr [.num 0, .num 0]),
                             fireDiscoveryDateTime := some 0,
                             incidentSize := some (-5) }]) =
      [{ coordinates := [.num 0, .num 0], detection_time := 0, incident_size := -5 }] ∧
    ((-5 : ℚ) < 0) := by
  constructor
  · rfl
  · norm_num

/-- Claim C5, amended: the parser copies the size field verbatim, so the
invariant `incident_size >= 0` holds for the output records exactly when
the input features' size fields are themselves non-negative: if every
present size field of the collection is `>= 0`, every parsed record has
`incident_size >= 0`. -/
theorem c5_nonneg_when_input_nonneg (fs : List FireFeature)
    (h : ∀ f ∈ fs, ∀ s, f.incidentSize = some s → 0 ≤ s) :
    ∀ r ∈ parse_fire_data (some fs), 0 ≤ r.incident_size := by
  intro r hr
  rw [parse_fire_data, List.mem_filterMap] at hr
  obtain ⟨f, hf, hpf⟩ := hr
  exact h f hf r.incident_size (parseFeature_size f r hpf)

/-- Witness for the amended claim C5: a one-feature collection whose size
field is `7` parses to a record of size `7`, and the theorem yields its
non-negativity. -/
theorem c5_witness : (0 : ℚ) ≤ 7 :=
  c5_nonneg_when_input_nonneg
    [{ coordinates := some (.arr [.num 0, .num 0]),
       fireDiscoveryDateTime := some 0, incidentSize := some 7 }]
    (by
      intro f hf s hs
      rw [List.mem_singleton] at hf
      subst hf
      obtain rfl : (7 : ℚ) = s := by injection hs
      norm_num)
    { coordinates := [.num 0, .num 0], detection_time := 0, incident_size := 7 }
    (by exact List.mem_singleton.mpr rfl)

/-- A feature whose discovery-timestamp field is absent is rejected by the
per-feature parser, whatever its other fields hold. -/
theorem parseFeature_none_of_no_timestamp (f : FireFeature)
    (h : f.fireDiscoveryDateTime = none) : parseFeature f = none := by
  rw [parseFeature]
  cases hc : f.coordinates with
  | none => rfl
  | some c => rw [h]

/-- Claim C6: a feature missing its timestamp field (or its size field) is
skipped individually and parsing continues: a collection of three point
features in which exactly the middle one lacks the timestamp field — the
other two having coordinates, timestamp and size present — parses to
exactly two records, and the parse is a total function (it never aborts). -/
theorem c6_bad_feature_skipped (f1 f2 f3 : FireFeature)
    (e1 : List GeoValue) (h1c : f1.coordinates = some (.arr e1))
    (h1t : f1.fireDiscoveryDateTime.isSome = true) (h1s : f1.incidentSize.isSome = true)
    (h2 : f2.fireDiscoveryDateTime = none)
    (e3 : List GeoValue) (h3c : f3.coordinates = some (.arr e3))
    (h3t : f3.fireDiscoveryDateTime.isSome = true) (h3s : f3.incidentSize.isSome = true) :
    (parse_fire_data (some [f1, f2, f3])).length = 2 := by
  obtain ⟨t1, ht1⟩ := Option.isSome_iff_exists.mp h1t
  obtain ⟨s1, hs1⟩ := Option.isSome_iff_exists.mp h1s
  obtain ⟨t3, ht3⟩ := Option.isSome_iff_exists.mp h3t
  obtain ⟨s3, hs3⟩ := Option.isSome_iff_exists.mp h3s
  have p1 : parseFeature f1 =
      some { coordinates := e1, detection_time := t1, incident_size := s1 } := by
    rw [parseFeature, h1c, ht1, hs1]
    rfl
  have p3 : parseFeature f3 =
      some { coordinates := e3, detection_time := t3, incident_size := s3 } := by
    rw [parseFeature, h3c, ht3, hs3]
    rfl
  rw [parse_fire_data, List.filterMap_cons, p1, List.filterMap_cons,
    parseFeature_none_of_no_timestamp f2 h2, List.filterMap_cons, p3]
  rfl

/-- Witness for claim C6, on the three-feature collection of the
malformed-feature scenario. -/
theorem c6_witness :
    (parse_fire_data (some
      [{ coordinates := some (.arr [.num 1, .num 2]),
         fireDiscoveryDateTime := some 100, incidentSize := some 3 },
       { coordinates := some (.arr [.num 4, .num 5]),
         fireDiscoveryDateTime := none, incidentSize := some 6 },
       { coordinates := some (.arr [.num 7, .num 8]),
         fireDiscoveryDateTime := some 200, incidentSize := some 9 }])).length = 2 :=
  c6_bad_feature_skipped _ _ _ [.num 1, .num 2] rfl rfl rfl rfl [.num 7, .num 8] rfl rfl rfl

/-- Claim C7: the boolean-sum count the code computes equals the number of
records whose incident size strictly exceeds 1000 acres; in particular,
over the three incidents of scenario 4 (hours 5, 5, 9, sizes 10, 2000, 300)
the count is 1. -/
theorem c7_count_exceeding_threshold :
    (∀ records : List FireRecord,
        large_fire_count records =
          (records.filter (fun r => decide (1000 < r.incident_size))).length) ∧
    large_fire_count
      [{ coordinates := [], detection_time := 18000000, incident_size := 10 },
       { coordinates := [], detection_time := 18000000, incident_size := 2000 },
       { coordinates := [], detection_time := 32400000, incident_size := 300 }] = 1 := by
  constructor
  · intro records
    induction records with
    | nil => rfl
    | cons r rs ih =>
      have step : large_fire_count (r :: rs) =
          (if (1000:ℚ) < r.incident_size then 1 else 0) + large_fire_count rs := rfl
      rw [step, ih, List.filter_cons]
      by_cases h : (1000:ℚ) < r.incident_size
      · simp [h, Nat.add_comm]
      · simp [h]
  · with_unfolding_all decide

/-- Claim C8: the statistics component reports the hour/size correlation as
an absent value (`None`) exactly when fewer than two point records exist,
and computes the Pearson coefficient of the hour and size columns whenever
at least two exist (on degenerate data of zero variance the float result is
`nan`, which is still a computed non-`None` value). -/
theorem c8_correlation_none_iff (records : List FireRecord) :
    ((correlation records).isNone ↔ records.length < 2) ∧
    (2 ≤ records.length →
      correlation records =
        some (pearson ((hours records).map (fun h => (h : ℚ))) (sizes records))) := by
  constructor
  · rw [correlation]
    by_cases h : 1 < records.length
    · rw [if_pos h]
      simp
      omega
    · rw [if_neg h]
      simp
      omega
  · intro h2
    rw [correlation, if_pos (by omega)]

/-- Witness for claim C8: a two-record list gets a computed (non-`None`)
correlation value. -/
theorem c8_witness :
    correlation
      [{ coordinates := [], detection_time := 18000000, incident_size := 10 },
       { coordinates := [], detection_time := 32400000, incident_size := 2000 }] =
      some (pearson
        ((hours [{ coordinates := [], detection_time := 18000000, incident_size := 10 },
                 { coordinates := [], detection_time := 32400000, incident_size := 2000 }]).map
          (fun h => (h : ℚ)))
        (sizes [{ coordinates := [], detection_time := 18000000, incident_size := 10 },
                { coordinates := [], detection_time := 32400000, incident_size := 2000 }])) :=
  (c8_correlation_none_iff
    [{ coordinates := [], detection_time := 18000000, incident_size := 10 },
     { coordinates := [], detection_time := 32400000, incident_size := 2000 }]).2
    (by decide)

/-- Claim C10: the claim states the parser accepts a coordinates entry of
ANY form. The code refutes it at a numeric coordinates entry: with
timestamp and size present, `tuple(coords)` raises on the non-iterable
value `5`, and the feature is skipped instead of emitted. -/
theorem c10_counterexample :
    parse_fire_data (some [{ coordinates := some (.num 5),
                             fireDiscoveryDateTime := some 0,
                             incidentSize := some 1 }]) = [] := rfl

/-- Claim C10, amended: the parser performs no validation of the SHAPE of a
sequence-valued coordinates entry: any list value (for example a list of
polygon rings rather than a longitude/latitude pair), together with present
timestamp and size fields, is accepted and its elements are carried into
the record unchanged; only a non-iterable coordinates value (where
`tuple(coords)` raises) is skipped. -/
theorem c10_list_coordinates_unvalidated (fs : List FireFeature) (f : FireFeature)
    (elems : List GeoValue) (ts : ℤ) (sz : ℚ)
    (hf : f ∈ fs) (hc : f.coordinates = some (.arr elems))
    (ht : f.fireDiscoveryDateTime = some ts) (hs : f.incidentSize = some sz) :
    ({ coordinates := elems, detection_time := ts, incident_size := sz } : FireRecord) ∈
      parse_fire_data (some fs) := by
  rw [parse_fire_data, List.mem_filterMap]
  refine ⟨f, hf, ?_⟩
  rw [parseFeature, hc, ht, hs]
  rfl

/-- Witness for the amended claim C10: a feature whose coordinates entry is
a list of one polygon ring (three positions) parses to a record carrying
exactly those ring coordinates. -/
theorem c10_witness :
    ({ coordinates := [.arr [.arr [.num 0, .num 0], .arr [.num 1, .num 0], .arr [.num 0, .num 1]]],
       detection_time := 0, incident_size := 2 } : FireRecord) ∈
      parse_fire_data (some
        [{ coordinates :=
             some (.arr [.arr [.arr [.num 0, .num 0], .arr [.num 1, .num 0], .arr [.num 0, .num 1]]]),
           fireDiscoveryDateTime := some 0, incidentSize := some 2 }]) :=
  c10_list_coordinates_unvalidated
    [{ coordinates :=
         some (.arr [.arr [.arr [.num 0, .num 0], .arr [.num 1, .num 0], .arr [.num 0, .num 1]]]),
       fireDiscoveryDateTime := some 0, incidentSize := some 2 }]
    { coordinates :=
        some (.arr [.arr [.arr [.num 0, .num 0], .arr [.num 1, .num 0], .arr [.num 0, .num 1]]]),
      fireDiscoveryDateTime := some 0, incidentSize := some 2 }
    [.arr [.arr [.num 0, .num 0], .arr [.num 1, .num 0], .arr [.num 0, .num 1]]]
    0 2 (List.mem_singleton.mpr rfl) rfl rfl rfl
